import Mathlib

/-!
Verification of the ingestion pipeline of the Nordic Energy Dashboard
(`app/main.py`): rolling median + MAD spike detection, defensive numeric
parsing, the retry behaviour of the upstream fetchers, the schema
migrator, the Nordpool price filtering, and the exchange-rate fallback
cache.  Python floats are modelled as exact rationals (`ℚ`); every
property below is about thresholds, branch structure and control flow,
none depends on binary floating-point rounding.
-/

-- ===========================================================================
-- Spike detection (rolling median + MAD), `main.py` lines 550-602
-- ===========================================================================

/-- Number of recent data points considered by the detector. -/
def SPIKE_WINDOW_SIZE : Nat := 24

/-- Multiplier for the MAD-based threshold. -/
def SPIKE_THRESHOLD_K : ℚ := 5

/-- Percentage fallback (50%) used when the MAD is zero. -/
def SPIKE_FALLBACK_PCT : ℚ := 1 / 2

/-- Minimum number of history points needed to validate a value. -/
def SPIKE_MIN_HISTORY : Nat := 6

/-- Median of a list of rationals, as computed by `_compute_median` in
`main.py`: sort, then take the middle element, or the mean of the two
middle elements for even length; `0.0` for an empty list. -/
def _compute_median (values : List ℚ) : ℚ :=
  let s := values.insertionSort (· ≤ ·)
  let n := s.length
  if n = 0 then 0
  else
    let mid := n / 2
    if n % 2 = 0 then (s.getD (mid - 1) 0 + s.getD mid 0) / 2
    else s.getD mid 0

/-- Median Absolute Deviation, as computed by `_compute_mad` in `main.py`. -/
def _compute_mad (values : List ℚ) (median : ℚ) : ℚ :=
  _compute_median (values.map (fun v => |v - median|))

/-- `is_spike_value` from `main.py`: decides whether `new_value` is a spike
relative to `recent_values`, returning the decision and the reason tag
(the numeric parts of the Python reason strings are omitted). -/
def is_spike_value (new_value : ℚ) (recent_values : List ℚ)
    (threshold_k : ℚ) (fallback_pct : ℚ) (min_history : Nat) : Bool × String :=
  if recent_values.length < min_history then (false, "insufficient_history")
  else
    let median := _compute_median recent_values
    let mad := _compute_mad recent_values median
    let deviation := |new_value - median|
    if 0 < mad then
      if threshold_k * mad < deviation then (true, "MAD_exceeded")
      else (false, "within_MAD_bounds")
    else
      if |median| < 1 / 1000000000 then
        if 1 / 100 < |new_value| then (true, "zero_median_nonzero_value")
        else (false, "zero_median_zero_value")
      else
        if fallback_pct * |median| < deviation then (true, "pct_exceeded")
        else (false, "within_pct_bounds")

/-- `is_spike_value` applied with the default thresholds, as every call
site in `main.py` does. -/
def is_spike (new_value : ℚ) (recent_values : List ℚ) : Bool × String :=
  is_spike_value new_value recent_values SPIKE_THRESHOLD_K SPIKE_FALLBACK_PCT SPIKE_MIN_HISTORY

-- ===========================================================================
-- Defensive numeric parsing (`parse_value`, `main.py` lines 533-542)
-- ===========================================================================

/-- Value of a list of decimal digit characters. -/
def digitsToNat (ds : List Char) : Nat :=
  ds.foldl (fun a c => a * 10 + (c.toNat - 48)) 0

/-- Split an optional leading sign; returns (isNegative, rest). -/
def splitSign : List Char → Bool × List Char
  | '-' :: r => (true, r)
  | '+' :: r => (false, r)
  | r => (false, r)

/-- Value of a decimal mantissa with integer digits `ip` and fractional
digits `fp`. -/
def mantissaVal (ip fp : List Char) : ℚ :=
  (digitsToNat ip : ℚ) + (digitsToNat fp : ℚ) / (10 : ℚ) ^ fp.length

/-- Parser for `[sign] (digits [. digits] | . digits) [(e|E) [sign] digits]`.
Models the `float(...)` builtin used by `parse_value` on the
decimal-notation strings occurring in the upstream payloads (the special
forms `inf`/`nan` and underscore digit separators are not modelled). -/
def pyFloatCore (cs : List Char) : Option ℚ :=
  let p1 := splitSign cs
  let p2 := p1.2.span Char.isDigit
  let p3 :=
    match p2.2 with
    | '.' :: r => r.span Char.isDigit
    | _ => (([] : List Char), p2.2)
  if p2.1.isEmpty && p3.1.isEmpty then Option.none
  else
    let m := mantissaVal p2.1 p3.1
    let signed := if p1.1 then -m else m
    match p3.2 with
    | [] => Option.some signed
    | c :: r =>
      if c = 'e' ∨ c = 'E' then
        let e1 := splitSign r
        let e2 := e1.2.span Char.isDigit
        if e2.1.isEmpty ∨ ¬ e2.2.isEmpty then Option.none
        else if e1.1 then Option.some (signed / (10 : ℚ) ^ digitsToNat e2.1)
        else Option.some (signed * (10 : ℚ) ^ digitsToNat e2.1)
      else Option.none

/-- String form of the float parser. -/
def pyFloat? (s : String) : Option ℚ :=
  pyFloatCore s.data

/-- Python values that can reach `parse_value`: JSON scalars. Booleans are
included because Python treats `bool` as a subtype of `int` (so they take
the numeric branch). -/
inductive PyVal where
  | none
  | bool (b : Bool)
  | int (n : ℤ)
  | float (q : ℚ)
  | str (s : String)
deriving DecidableEq

/-- Drop the non-ASCII characters of a string, as
`value.encode('ascii', 'ignore').decode('ascii')` does. -/
def asciiClean (s : String) : String :=
  String.mk (s.data.filter (fun c => c.toNat < 128))

/-- The ASCII whitespace characters removed by Python `str.strip()`. -/
def PY_WHITESPACE : List Char := [' ', '\t', '\n', '\r', '\x0b', '\x0c']

/-- Python `str.strip()` on an ASCII string. -/
def pythonStrip (s : String) : String :=
  String.mk
    (((s.data.dropWhile (· ∈ PY_WHITESPACE)).reverse.dropWhile (· ∈ PY_WHITESPACE)).reverse)

/-- The cleaned string built inside `parse_value`: ASCII-clean then strip. -/
def cleaned_string (s : String) : String :=
  pythonStrip (asciiClean s)

/-- `parse_value` from `main.py`: `None` maps to 0.0, numeric values are
cast, strings are ASCII-cleaned, stripped and parsed as float, and every
failure path yields 0.0.  Total by construction, like the Python original
whose `try`/`except` never lets a parse exception escape. -/
def parse_value (value : PyVal) : ℚ :=
  match value with
  | PyVal.none => 0
  | PyVal.bool b => if b then 1 else 0
  | PyVal.int n => (n : ℚ)
  | PyVal.float q => q
  | PyVal.str s =>
    let cleaned := cleaned_string s
    if cleaned = "" then 0
    else
      match pyFloat? cleaned with
      | Option.some q => q
      | Option.none => 0

-- ===========================================================================
-- Grid/mix ingestion (`fetch_and_store_data`, `main.py` lines 617-737)
-- ===========================================================================

/-- Row of the `energy_status` table. -/
structure GridRow where
  timestamp : Nat
  country : String
  production : ℚ
  consumption : ℚ
  (import_value export_value : ℚ)
deriving DecidableEq

/-- Row of the `energy_types` table. -/
structure TypesRow where
  timestamp : Nat
  country : String
  nuclear : ℚ
  hydro : ℚ
  wind : ℚ
  thermal : ℚ
  not_specified : ℚ
deriving DecidableEq

/-- Column projection for `energy_status`. -/
def grid_column (column : String) (r : GridRow) : ℚ :=
  if column = "production" then r.production
  else if column = "consumption" then r.consumption
  else if column = "import_value" then r.import_value
  else if column = "export_value" then r.export_value
  else 0

/-- Column projection for `energy_types`. -/
def types_column (column : String) (r : TypesRow) : ℚ :=
  if column = "nuclear" then r.nuclear
  else if column = "hydro" then r.hydro
  else if column = "wind" then r.wind
  else if column = "thermal" then r.thermal
  else if column = "not_specified" then r.not_specified
  else 0

/-- `get_recent_values` on the `energy_status` table: the most recent
`limit` values of one column for one country (`ORDER BY timestamp DESC
LIMIT ?`). -/
def get_recent_values (db : List GridRow) (column country : String) (limit : Nat) : List ℚ :=
  ((((db.filter (fun r => r.country = country)).insertionSort
      (fun a b => b.timestamp ≤ a.timestamp)).take limit).map (grid_column column))

/-- `get_recent_values` on the `energy_types` table. -/
def get_recent_type_values (db : List TypesRow) (column country : String) (limit : Nat) : List ℚ :=
  ((((db.filter (fun r => r.country = country)).insertionSort
      (fun a b => b.timestamp ≤ a.timestamp)).take limit).map (types_column column))

/-- Spike clamping used by the grid/mix writer: a value judged a spike is
replaced by the rolling median of its recent window, otherwise kept. -/
def clamp_field (v : ℚ) (recent : List ℚ) : ℚ :=
  if (is_spike v recent).1 then _compute_median recent else v

/-- The per-field loop of `fetch_and_store_data`: every field of the row is
clamped against its own recent window; no field is ever removed. -/
def clamp_spikes (fields : List (String × ℚ)) (recentOf : String → List ℚ) :
    List (String × ℚ) :=
  fields.map (fun fv => (fv.1, clamp_field fv.2 (recentOf fv.1)))

/-- Read one named field of a field list (the dict access after the clamp
loop). -/
def lookup_field (fields : List (String × ℚ)) (name : String) : ℚ :=
  match fields.find? (fun fv => fv.1 == name) with
  | Option.some fv => fv.2
  | Option.none => 0

/-- The net-exchange split of `fetch_and_store_data` (lines 660-661): the
stored import is the non-negative part over 1000 and the stored export the
absolute value of the negative part over 1000. -/
def splitExchange (exchange : ℚ) : ℚ × ℚ :=
  (if 0 ≤ exchange then exchange / 1000 else 0,
   if exchange < 0 then |exchange| / 1000 else 0)

/-- The `status_fields` dict: kW-scale raw values divided by 1000. -/
def status_fields_of (production consumption exchange : ℚ) : List (String × ℚ) :=
  [("production", production / 1000), ("consumption", consumption / 1000),
   ("import_value", (splitExchange exchange).1), ("export_value", (splitExchange exchange).2)]

/-- The `types_fields` dict: kW-scale raw values divided by 1000. -/
def types_fields_of (nuclear hydro wind thermal not_specified : ℚ) : List (String × ℚ) :=
  [("nuclear", nuclear / 1000), ("hydro", hydro / 1000), ("wind", wind / 1000),
   ("thermal", thermal / 1000), ("not_specified", not_specified / 1000)]

/-- `INSERT OR REPLACE INTO energy_status`, keyed by (timestamp, country). -/
def store_status_row (db : List GridRow) (row : GridRow) : List GridRow :=
  row :: db.filter (fun r => ¬ (r.timestamp = row.timestamp ∧ r.country = row.country))

/-- `INSERT OR REPLACE INTO energy_types`, keyed by (timestamp, country). -/
def store_types_row (db : List TypesRow) (row : TypesRow) : List TypesRow :=
  row :: db.filter (fun r => ¬ (r.timestamp = row.timestamp ∧ r.country = row.country))

/-- The per-country `energy_status` pipeline of `fetch_and_store_data`:
parse the raw values, build the field dict, clamp spikes against the
stored history, and upsert the row. -/
def fetch_store_status (db : List GridRow) (ts : Nat) (country : String)
    (productionRaw consumptionRaw exchangeRaw : PyVal) : List GridRow :=
  let production := parse_value productionRaw
  let consumption := parse_value consumptionRaw
  let exchange := parse_value exchangeRaw
  let fields := clamp_spikes (status_fields_of production consumption exchange)
      (fun name => get_recent_values db name country SPIKE_WINDOW_SIZE)
  store_status_row db
    (GridRow.mk ts country (lookup_field fields "production") (lookup_field fields "consumption")
      (lookup_field fields "import_value") (lookup_field fields "export_value"))

/-- The per-country `energy_types` pipeline of `fetch_and_store_data`. -/
def fetch_store_types (db : List TypesRow) (ts : Nat) (country : String)
    (nuclearRaw hydroRaw windRaw thermalRaw notSpecifiedRaw : PyVal) : List TypesRow :=
  let fields := clamp_spikes
      (types_fields_of (parse_value nuclearRaw) (parse_value hydroRaw) (parse_value windRaw)
        (parse_value thermalRaw) (parse_value notSpecifiedRaw))
      (fun name => get_recent_type_values db name country SPIKE_WINDOW_SIZE)
  store_types_row db
    (TypesRow.mk ts country (lookup_field fields "nuclear") (lookup_field fields "hydro")
      (lookup_field fields "wind") (lookup_field fields "thermal")
      (lookup_field fields "not_specified"))

-- ===========================================================================
-- Price ingestion (`_fetch_nordpool_day` / `fetch_and_store_prices`)
-- ===========================================================================

/-- The `ZONE_TO_COUNTRY` map built from `COUNTRY_ZONES` in `main.py`. -/
def ZONE_TO_COUNTRY (zone : String) : Option String :=
  if zone = "SE1" ∨ zone = "SE2" ∨ zone = "SE3" ∨ zone = "SE4" then Option.some "SE"
  else if zone = "NO1" ∨ zone = "NO2" ∨ zone = "NO3" ∨ zone = "NO4" ∨ zone = "NO5" then
    Option.some "NO"
  else if zone = "FI" then Option.some "FI"
  else if zone = "DK1" ∨ zone = "DK2" then Option.some "DK"
  else Option.none

/-- Row of the `spot_prices` table. -/
structure PriceRow where
  timestamp : Nat
  country : String
  zone : String
  price : ℚ
  currency : String
deriving DecidableEq

/-- The recent-price query of `fetch_and_store_prices`:
`SELECT price FROM spot_prices WHERE zone = ? ORDER BY timestamp DESC LIMIT ?`. -/
def recent_prices (db : List PriceRow) (zone : String) : List ℚ :=
  ((((db.filter (fun r => r.zone = zone)).insertionSort
      (fun a b => b.timestamp ≤ a.timestamp)).take SPIKE_WINDOW_SIZE).map (fun r => r.price))

/-- `INSERT OR REPLACE INTO spot_prices`, keyed by (timestamp, zone). -/
def upsert_price (db : List PriceRow) (row : PriceRow) : List PriceRow :=
  row :: db.filter (fun r => ¬ (r.timestamp = row.timestamp ∧ r.zone = row.zone))

/-- The storage loop of `fetch_and_store_prices`: for each decoded
(timestamp, zone, price) tuple, look up the country, query the recent
prices for the zone, and either skip the tuple (spike) or upsert the row.
Returns (final table, inserted tuples, spike-dropped tuples). -/
def store_prices :
    List (Nat × String × ℚ) → List PriceRow →
      List PriceRow × List (Nat × String × ℚ) × List (Nat × String × ℚ)
  | [], db => (db, [], [])
  | (ts, zone, price) :: rest, db =>
    match ZONE_TO_COUNTRY zone with
    | Option.none => store_prices rest db
    | Option.some country =>
      if (is_spike price (recent_prices db zone)).1 then
        let r := store_prices rest db
        (r.1, r.2.1, (ts, zone, price) :: r.2.2)
      else
        let r := store_prices rest (upsert_price db (PriceRow.mk ts country zone price "EUR"))
        (r.1, (ts, zone, price) :: r.2.1, r.2.2)

/-- A decoded per-zone price value of the Nordpool payload.  `nan` models a
float NaN, for which the guard `price_val != price_val` fires. -/
inductive PriceJson where
  | num (q : ℚ)
  | nan
  | str (s : String)
  | null
deriving DecidableEq

/-- The price guard of `_fetch_nordpool_day` (lines 798-804): `float(price)`
with `TypeError`/`ValueError` skipped, then the NaN check and the
`abs(price_val) > 1e6` magnitude check.  Returns the accepted price, or
`none` when the entry is to be discarded.  (Python `float()` strips
whitespace around a string argument before parsing.) -/
def coerce_price : PriceJson → Option ℚ
  | PriceJson.num q => if 1000000 < |q| then Option.none else Option.some q
  | PriceJson.nan => Option.none
  | PriceJson.str s =>
    match pyFloat? (pythonStrip s) with
    | Option.some q => if 1000000 < |q| then Option.none else Option.some q
    | Option.none => Option.none
  | PriceJson.null => Option.none

/-- One element of `multiAreaEntries`.  `deliveryStart` is the delivery
hour already truncated to the hour; `Option.none` models a missing or
unparseable `deliveryStart`, which the loop skips. -/
structure MultiAreaEntry where
  deliveryStart : Option Nat
  entryPerArea : List (String × PriceJson)

/-- The inner `entryPerArea` loop of `_fetch_nordpool_day`: zone filter,
first-per-(zone, hour) dedup (the key is marked seen before the price
guard runs), then the price guard.  Returns (collected tuples, seen keys). -/
def nordpool_collect_area (zones : List String) (hourStart : Nat) :
    List (String × PriceJson) → List (String × Nat) →
      List (Nat × String × ℚ) × List (String × Nat)
  | [], seen => ([], seen)
  | (zone, price) :: rest, seen =>
    if zone ∉ zones then nordpool_collect_area zones hourStart rest seen
    else if (zone, hourStart) ∈ seen then nordpool_collect_area zones hourStart rest seen
    else
      let seen1 := (zone, hourStart) :: seen
      match coerce_price price with
      | Option.none => nordpool_collect_area zones hourStart rest seen1
      | Option.some q =>
        let r := nordpool_collect_area zones hourStart rest seen1
        ((hourStart, zone, q) :: r.1, r.2)

/-- The outer `multiAreaEntries` loop of `_fetch_nordpool_day`; the seen
set threads across entries. -/
def nordpool_collect (zones : List String) :
    List MultiAreaEntry → List (String × Nat) → List (Nat × String × ℚ)
  | [], _ => []
  | e :: rest, seen =>
    match e.deliveryStart with
    | Option.none => nordpool_collect zones rest seen
    | Option.some hourStart =>
      let r := nordpool_collect_area zones hourStart e.entryPerArea seen
      r.1 ++ nordpool_collect zones rest r.2

/-- The decode phase of `_fetch_nordpool_day` applied to a decoded payload. -/
def _fetch_nordpool_day (zones : List String) (entries : List MultiAreaEntry) :
    List (Nat × String × ℚ) :=
  nordpool_collect zones entries []

-- ===========================================================================
-- Retry behaviour of the fetchers
-- ===========================================================================

/-- Number of attempts of the Statnett fetch. -/
def STATNETT_API_RETRIES : Nat := 3

/-- Number of attempts of the Nordpool fetch. -/
def NORDPOOL_API_RETRIES : Nat := 3

/-- The retry loop of `fetch_and_store_data`: only `requests.get` and
`raise_for_status` sit inside the `try`.  `req i` is the outcome of the
i-th HTTP attempt; the result is (number of HTTP requests issued, first
successful response if any). -/
def statnett_retry_loop {α : Type} (req : Nat → Except Unit α) : Nat → Nat → Nat × Option α
  | _, 0 => (0, Option.none)
  | i, rem + 1 =>
    match req i with
    | Except.ok r => (1, Option.some r)
    | Except.error _ =>
      let t := statnett_retry_loop req (i + 1) rem
      (t.1 + 1, t.2)

/-- The fetch phase of `fetch_and_store_data`: the retry loop, then a
single `response.json()` decode outside the loop — a decode failure
propagates as an error without any further HTTP request. -/
def statnett_fetch_phase {α β : Type} (req : Nat → Except Unit α)
    (decode : α → Except Unit β) : Nat × Except Unit β :=
  match statnett_retry_loop req 0 STATNETT_API_RETRIES with
  | (n, Option.some r) => (n, decode r)
  | (n, Option.none) => (n, Except.error ())

/-- The retry loop of `_fetch_nordpool_day`: `requests.get`,
`raise_for_status` and `resp.json()` all sit inside the `try`, so a decode
failure takes the same retry path as a network failure. -/
def nordpool_retry_loop {α β : Type} (req : Nat → Except Unit α)
    (decode : α → Except Unit β) : Nat → Nat → Nat × Option β
  | _, 0 => (0, Option.none)
  | i, rem + 1 =>
    match req i with
    | Except.error _ =>
      let t := nordpool_retry_loop req decode (i + 1) rem
      (t.1 + 1, t.2)
    | Except.ok r =>
      match decode r with
      | Except.ok p => (1, Option.some p)
      | Except.error _ =>
        let t := nordpool_retry_loop req decode (i + 1) rem
        (t.1 + 1, t.2)

/-- The fetch phase of `_fetch_nordpool_day`. -/
def nordpool_fetch_phase {α β : Type} (req : Nat → Except Unit α)
    (decode : α → Except Unit β) : Nat × Option β :=
  nordpool_retry_loop req decode 0 NORDPOOL_API_RETRIES

-- ===========================================================================
-- Schema migrator (`init_db`, `main.py` lines 338-520)
-- ===========================================================================

/-- Abstract state of the SQLite store: which tables exist, plus the rows
of the `schema_version` ledger (their `version` values, in insertion
order). -/
structure DBState where
  hasSchemaVersion : Bool
  hasEnergyStatus : Bool
  hasEnergyTypes : Bool
  hasSpotPrices : Bool
  hasKeyValueStore : Bool
  ledger : List Nat
deriving DecidableEq

/-- `MAX(version)` over the ledger, with `NULL` mapped to 0. -/
def ledger_max (l : List Nat) : Nat :=
  l.foldr max 0

/-- `_get_schema_version` from `main.py`: if no `schema_version` table
exists, infer a legacy version from the presence of `energy_status` and
`spot_prices`; otherwise take `MAX(version)` (0 for an empty table). -/
def _get_schema_version (s : DBState) : Nat :=
  if s.hasSchemaVersion = false then
    if s.hasEnergyStatus ∧ s.hasSpotPrices then 2
    else if s.hasEnergyStatus then 1
    else 0
  else ledger_max s.ledger

/-- `_set_schema_version`: create the ledger table if needed and append one
row. -/
def _set_schema_version (s : DBState) (version : Nat) : DBState :=
  { s with hasSchemaVersion := true, ledger := s.ledger ++ [version] }

/-- Migration v1: baseline tables `energy_status` and `energy_types`. -/
def _migrate_v1 (s : DBState) : DBState :=
  { s with hasEnergyStatus := true, hasEnergyTypes := true }

/-- Migration v2: `spot_prices` table. -/
def _migrate_v2 (s : DBState) : DBState :=
  { s with hasSpotPrices := true }

/-- Migration v3: `key_value_store` table. -/
def _migrate_v3 (s : DBState) : DBState :=
  { s with hasKeyValueStore := true }

/-- The `MIGRATIONS` table of `main.py`. -/
def MIGRATIONS (version : Nat) : Option (DBState → DBState) :=
  if version = 1 then Option.some _migrate_v1
  else if version = 2 then Option.some _migrate_v2
  else if version = 3 then Option.some _migrate_v3
  else Option.none

/-- `SCHEMA_TARGET_VERSION` from `main.py`. -/
def SCHEMA_TARGET_VERSION : Nat := 3

/-- Result of `init_db`.  `error` carries the in-transaction state at the
moment of the raise; the surrounding transaction is never committed on
error, and on the raises modelled here nothing has been written yet.
`ok` carries the final state and the list of migration steps whose DDL
function was actually invoked. -/
inductive InitResult where
  | ok (s : DBState) (applied : List Nat)
  | error (msg : String) (s : DBState)
deriving DecidableEq

/-- The migration loop of `init_db`: for each pending version, look up the
migration (raising when missing), run it, and append a ledger row. -/
def run_migrations : DBState → List Nat → InitResult
  | s, [] => InitResult.ok s []
  | s, v :: rest =>
    match MIGRATIONS v with
    | Option.none => InitResult.error "missing migration" s
    | Option.some fn =>
      match run_migrations (_set_schema_version (fn s) v) rest with
      | InitResult.ok s2 applied => InitResult.ok s2 (v :: applied)
      | InitResult.error m s2 => InitResult.error m s2

/-- `init_db` from `main.py`, with the target version as a parameter (the
binary uses `SCHEMA_TARGET_VERSION`): early return when up to date, a
fatal raise on downgrade before anything is touched, creation of the
ledger table, the legacy-version backfill, and the migration loop. -/
def init_db (target : Nat) (s : DBState) : InitResult :=
  let current := _get_schema_version s
  if current = target then InitResult.ok s []
  else if target < current then InitResult.error "refusing to downgrade" s
  else
    let s1 : DBState := { s with hasSchemaVersion := true }
    let s2 :=
      if 0 < current ∧ s1.ledger.length = 0 then
        (List.range' 1 current).foldl _set_schema_version s1
      else s1
    run_migrations s2 (List.range' (current + 1) (target - current))

/-- The ledger of the final state of a successful `init_db`, if any. -/
def initLedger : InitResult → Option (List Nat)
  | InitResult.ok s _ => Option.some s.ledger
  | InitResult.error _ _ => Option.none

/-- The applied migration steps of a successful `init_db`, if any. -/
def initApplied : InitResult → Option (List Nat)
  | InitResult.ok _ applied => Option.some applied
  | InitResult.error _ _ => Option.none

-- ===========================================================================
-- Exchange rates (`main.py` lines 129-135, 215-241, 893-926)
-- ===========================================================================

/-- The exchange-rate set persisted in `key_value_store`. -/
structure ExchangeRates where
  eur : ℚ
  sek : ℚ
  dkk : ℚ
  nok : ℚ
deriving DecidableEq

/-- `_FALLBACK_EXCHANGE_RATES` from `main.py`. -/
def _FALLBACK_EXCHANGE_RATES : ExchangeRates :=
  { eur := 1, sek := 11, dkk := 7.45, nok := 11.5 }

/-- Outcome of reading the `exchange_rates` row of `key_value_store`:
`ok none` means no row, `ok (some r)` a decoded row, and `failure` that
the query or the JSON decode raised (both are swallowed by the bare
`except`). -/
inductive KVReadResult where
  | ok (row : Option ExchangeRates)
  | failure

/-- `_get_exchange_rates_from_db` from `main.py`. -/
def _get_exchange_rates_from_db : KVReadResult → ExchangeRates
  | KVReadResult.ok (Option.some r) => r
  | KVReadResult.ok Option.none => _FALLBACK_EXCHANGE_RATES
  | KVReadResult.failure => _FALLBACK_EXCHANGE_RATES

/-- The `rates` object of a successful Frankfurter response; a field is
`none` when the response omits that currency. -/
structure RatesPayload where
  sek : Option ℚ
  dkk : Option ℚ
  nok : Option ℚ

/-- The rate-set construction of `fetch_exchange_rates`: start from a copy
of the fallback set, overwrite the currencies present in the response,
then force EUR to 1.0. -/
def build_new_rates (rates : RatesPayload) : ExchangeRates :=
  let base := _FALLBACK_EXCHANGE_RATES
  { eur := 1
    sek := match rates.sek with | Option.some v => v | Option.none => base.sek
    dkk := match rates.dkk with | Option.some v => v | Option.none => base.dkk
    nok := match rates.nok with | Option.some v => v | Option.none => base.nok }

-- ===========================================================================
-- Concrete data used by the witnesses
-- ===========================================================================

/-- Six stored SE3 price rows at 50 EUR/MWh: enough history for the
detector to judge a 5000 EUR/MWh reading a spike. -/
def sample_price_db : List PriceRow :=
  [PriceRow.mk 0 "SE" "SE3" 50 "EUR", PriceRow.mk 1 "SE" "SE3" 50 "EUR",
   PriceRow.mk 2 "SE" "SE3" 50 "EUR", PriceRow.mk 3 "SE" "SE3" 50 "EUR",
   PriceRow.mk 4 "SE" "SE3" 50 "EUR", PriceRow.mk 5 "SE" "SE3" 50 "EUR"]

-- ===========================================================================
-- Helper lemmas
-- ===========================================================================

theorem getD_replicate (v d : ℚ) : ∀ (n i : Nat), i < n → (List.replicate n v).getD i d = v := by
  intro n
  induction n with
  | zero => intro i h; omega
  | succ m ih =>
    intro i h
    cases i with
    | zero => rfl
    | succ j => simpa [List.replicate_succ] using ih j (by omega)

theorem insertionSort_replicate (n : Nat) (v : ℚ) :
    (List.replicate n v).insertionSort (· ≤ ·) = List.replicate n v := by
  apply List.eq_replicate_iff.mpr
  constructor
  · simp
  · intro b hb
    exact List.eq_of_mem_replicate
      ((List.perm_insertionSort (· ≤ ·) (List.replicate n v)).mem_iff.mp hb)

theorem median_replicate (n : Nat) (v : ℚ) (hn : 1 ≤ n) :
    _compute_median (List.replicate n v) = v := by
  simp only [_compute_median, insertionSort_replicate, List.length_replicate]
  rw [if_neg (by omega : ¬ n = 0)]
  by_cases h2 : n % 2 = 0
  · rw [if_pos h2, getD_replicate v 0 n (n / 2 - 1) (by omega),
      getD_replicate v 0 n (n / 2) (by omega)]
    ring
  · rw [if_neg h2, getD_replicate v 0 n (n / 2) (by omega)]

theorem mad_replicate (n : Nat) (v : ℚ) (hn : 1 ≤ n) :
    _compute_mad (List.replicate n v) v = 0 := by
  simp only [_compute_mad, List.map_replicate, sub_self, abs_zero]
  exact median_replicate n 0 hn

theorem is_spike_replicate (newV v : ℚ) (n : Nat) (hn : SPIKE_MIN_HISTORY ≤ n) :
    is_spike newV (List.replicate n v) =
      (if |v| < 1 / 1000000000 then
        (if 1 / 100 < |newV| then (true, "zero_median_nonzero_value")
         else (false, "zero_median_zero_value"))
       else
        (if SPIKE_FALLBACK_PCT * |v| < |newV - v| then (true, "pct_exceeded")
         else (false, "within_pct_bounds"))) := by
  have h1 : 1 ≤ n := le_trans (by norm_num [SPIKE_MIN_HISTORY]) hn
  simp only [is_spike, is_spike_value, List.length_replicate]
  rw [if_neg (by omega : ¬ n < SPIKE_MIN_HISTORY)]
  rw [median_replicate n v h1, mad_replicate n v h1]
  rw [if_neg (lt_irrefl 0)]

-- ===========================================================================
-- C7: spike detection on constant histories (MAD = 0 branch)
-- ===========================================================================

/-- C7 counterexample: the claim's "in particular" clause fails for a
constant nonzero history whose common value is below the 1e-9 near-zero
cutoff.  With six history points at 1e-10 and a new value of 1e-9, the new
value lies beyond the fallbackPct band around the history value (so the
claim calls it a spike), yet `is_spike` takes the near-zero branch and
accepts it. -/
theorem c7_counterexample :
    (1 : ℚ) / 10000000000 ≠ 0 ∧
    SPIKE_FALLBACK_PCT * |(1 : ℚ) / 10000000000| <
      |(1 : ℚ) / 1000000000 - 1 / 10000000000| ∧
    (is_spike ((1 : ℚ) / 1000000000) (List.replicate 6 ((1 : ℚ) / 10000000000))).1 = false := by
  refine ⟨by norm_num, ?_, ?_⟩
  · rw [SPIKE_FALLBACK_PCT, abs_of_pos (by norm_num : (0:ℚ) < 1 / 10000000000),
      abs_of_pos (by norm_num : (0:ℚ) < 1 / 1000000000 - 1 / 10000000000)]
    norm_num
  · rw [is_spike_replicate _ _ 6 (by decide)]
    rw [if_pos (by rw [abs_of_pos (by norm_num : (0:ℚ) < 1 / 10000000000)]; norm_num :
      |(1 : ℚ) / 10000000000| < 1 / 1000000000)]
    rw [if_neg (by rw [abs_of_pos (by norm_num : (0:ℚ) < 1 / 1000000000)]; norm_num :
      ¬ ((1 : ℚ) / 100 < |(1 : ℚ) / 1000000000|))]

/-- C7 (amended): for a constant history of length at least
`SPIKE_MIN_HISTORY` (so MAD = 0), if the common value v is near zero
(|v| < 1e-9) the new value is a spike iff its absolute value exceeds the
0.01 absolute tolerance; if |v| ≥ 1e-9 the new value is a spike iff its
deviation from v exceeds `SPIKE_FALLBACK_PCT * |v|`.  (The original
claim's "in particular" clause must require |v| ≥ 1e-9 rather than
v ≠ 0.) -/
theorem c7_amended (v newV : ℚ) (n : Nat) (hn : SPIKE_MIN_HISTORY ≤ n) :
    (|v| < 1 / 1000000000 →
      ((is_spike newV (List.replicate n v)).1 = true ↔ 1 / 100 < |newV|)) ∧
    (1 / 1000000000 ≤ |v| →
      ((is_spike newV (List.replicate n v)).1 = true ↔
        SPIKE_FALLBACK_PCT * |v| < |newV - v|)) := by
  rw [is_spike_replicate newV v n hn]
  constructor
  · intro hv
    rw [if_pos hv]
    by_cases h : 1 / 100 < |newV|
    · rw [if_pos h]
      simpa using h
    · rw [if_neg h]
      simpa using h
  · intro hv
    rw [if_neg (not_lt.mpr hv)]
    by_cases h : SPIKE_FALLBACK_PCT * |v| < |newV - v|
    · rw [if_pos h]
      simpa using h
    · rw [if_neg h]
      simpa using h

/-- C7 witness: the amended theorem applied at the constant history 5
(six points) and new value 10. -/
theorem c7_amended_witness :
    (|(5 : ℚ)| < 1 / 1000000000 →
      ((is_spike 10 (List.replicate 6 (5 : ℚ))).1 = true ↔ 1 / 100 < |(10 : ℚ)|)) ∧
    (1 / 1000000000 ≤ |(5 : ℚ)| →
      ((is_spike 10 (List.replicate 6 (5 : ℚ))).1 = true ↔
        SPIKE_FALLBACK_PCT * |(5 : ℚ)| < |(10 : ℚ) - 5|)) :=
  c7_amended 5 10 6 (by decide)

-- ===========================================================================
-- C3: net-exchange split
-- ===========================================================================

/-- C3 counterexample: at net exchange 0 both the import part and the
export part are 0, so "exactly one of import and export is non-zero for
that reading" fails at the reading 0. -/
theorem c3_counterexample :
    ¬ (((splitExchange 0).1 ≠ 0 ∧ (splitExchange 0).2 = 0) ∨
       ((splitExchange 0).1 = 0 ∧ (splitExchange 0).2 ≠ 0)) := by
  simp [splitExchange]

/-- C3 (amended): import is the non-negative part of the reading divided by
1000 and export the absolute value of the negative part divided by 1000;
at most one of the two is non-zero, and exactly one is non-zero whenever
the reading itself is non-zero (both are zero for a zero reading). -/
theorem c3_amended (e : ℚ) :
    (splitExchange e).1 = max e 0 / 1000 ∧
    (splitExchange e).2 = |min e 0| / 1000 ∧
    ¬ ((splitExchange e).1 ≠ 0 ∧ (splitExchange e).2 ≠ 0) ∧
    (e ≠ 0 → ((splitExchange e).1 ≠ 0 ↔ (splitExchange e).2 = 0)) := by
  rcases lt_trichotomy e 0 with h | h | h
  · have h1 : ¬ (0 ≤ e) := not_le.mpr h
    refine ⟨by simp [splitExchange, h1, max_eq_right h.le],
      by simp [splitExchange, h, min_eq_left h.le], by simp [splitExchange, h1], ?_⟩
    intro he
    simp [splitExchange, h1, h, div_eq_zero_iff, abs_eq_zero, he]
  · subst h
    exact ⟨by simp [splitExchange], by simp [splitExchange], by simp [splitExchange], by simp⟩
  · have h1 : (0 : ℚ) ≤ e := h.le
    have h2 : ¬ (e < 0) := not_lt.mpr h1
    refine ⟨by simp [splitExchange, h1, max_eq_left h1],
      by simp [splitExchange, h2, min_eq_right h1], by simp [splitExchange, h2], ?_⟩
    intro he
    simp [splitExchange, h1, h2, div_eq_zero_iff, he]

/-- C3 witness: the amended theorem at the concrete reading 5. -/
theorem c3_amended_witness :
    (splitExchange 5).1 = max 5 0 / 1000 ∧
    (splitExchange 5).2 = |min 5 0| / 1000 ∧
    ¬ ((splitExchange 5).1 ≠ 0 ∧ (splitExchange 5).2 ≠ 0) ∧
    ((5 : ℚ) ≠ 0 → ((splitExchange 5).1 ≠ 0 ↔ (splitExchange 5).2 = 0)) :=
  c3_amended 5

-- ===========================================================================
-- C10: exchange-rate fallback behaviour
-- ===========================================================================

/-- C10: a missing `exchange_rates` row and a failed read both yield the
hardcoded fallback set (EUR 1.0, SEK 11.0, DKK 7.45, NOK 11.5) instead of
an error, and a successful fetch whose response omits SEK, DKK or NOK
stores the fallback value for the omitted currency, with EUR always forced
to 1. -/
theorem c10 :
    _get_exchange_rates_from_db KVReadResult.failure = _FALLBACK_EXCHANGE_RATES ∧
    _get_exchange_rates_from_db (KVReadResult.ok Option.none) = _FALLBACK_EXCHANGE_RATES ∧
    _FALLBACK_EXCHANGE_RATES = ExchangeRates.mk 1 11 7.45 11.5 ∧
    (∀ p : RatesPayload,
      (build_new_rates p).eur = 1 ∧
      (p.sek = Option.none → (build_new_rates p).sek = _FALLBACK_EXCHANGE_RATES.sek) ∧
      (p.dkk = Option.none → (build_new_rates p).dkk = _FALLBACK_EXCHANGE_RATES.dkk) ∧
      (p.nok = Option.none → (build_new_rates p).nok = _FALLBACK_EXCHANGE_RATES.nok)) := by
  refine ⟨rfl, rfl, rfl, ?_⟩
  intro p
  refine ⟨rfl, ?_, ?_, ?_⟩ <;> intro h <;> simp [build_new_rates, h]

/-- C10 witness: the fallback-filling clause applied to a response that
omits all three currencies. -/
theorem c10_witness :
    (build_new_rates (RatesPayload.mk Option.none Option.none Option.none)).eur = 1 ∧
    ((RatesPayload.mk Option.none Option.none Option.none).sek = Option.none →
      (build_new_rates (RatesPayload.mk Option.none Option.none Option.none)).sek =
        _FALLBACK_EXCHANGE_RATES.sek) ∧
    ((RatesPayload.mk Option.none Option.none Option.none).dkk = Option.none →
      (build_new_rates (RatesPayload.mk Option.none Option.none Option.none)).dkk =
        _FALLBACK_EXCHANGE_RATES.dkk) ∧
    ((RatesPayload.mk Option.none Option.none Option.none).nok = Option.none →
      (build_new_rates (RatesPayload.mk Option.none Option.none Option.none)).nok =
        _FALLBACK_EXCHANGE_RATES.nok) :=
  c10.2.2.2 (RatesPayload.mk Option.none Option.none Option.none)

-- ===========================================================================
-- C8: defensive numeric coercion
-- ===========================================================================

/-- C8: the numeric coercion of the normalizer is total and never raises:
`None` maps to 0, numeric literals are cast, a string is stripped of
non-ASCII characters and trimmed then parsed as float, an empty string
after cleaning maps to 0, and any parse failure maps to 0.  Consequently a
grid fetch with consumption `"1500"` (string) and production `null` for a
country stores consumption 1.5 MW after the division by 1000 and
production 0. -/
theorem c8 :
    parse_value PyVal.none = 0 ∧
    (∀ n : ℤ, parse_value (PyVal.int n) = (n : ℚ)) ∧
    (∀ q : ℚ, parse_value (PyVal.float q) = q) ∧
    (∀ s : String, cleaned_string s = "" → parse_value (PyVal.str s) = 0) ∧
    (∀ s : String, pyFloat? (cleaned_string s) = Option.none → parse_value (PyVal.str s) = 0) ∧
    (∀ s : String, ∀ q : ℚ, cleaned_string s ≠ "" →
      pyFloat? (cleaned_string s) = Option.some q → parse_value (PyVal.str s) = q) ∧
    fetch_store_status [] 0 "SE" PyVal.none (PyVal.str "1500") PyVal.none =
      [GridRow.mk 0 "SE" 0 (3 / 2) 0 0] := by
  have hd : digitsToNat ['1', '5', '0', '0'] = 1500 := by decide
  have h2 : pyFloat? "1500" = Option.some (mantissaVal ['1', '5', '0', '0'] []) := rfl
  have h3 : mantissaVal ['1', '5', '0', '0'] [] = 1500 := by
    rw [mantissaVal, hd]
    norm_num [digitsToNat]
  have hc : cleaned_string "1500" = "1500" := by decide
  have hp : parse_value (PyVal.str "1500") = 1500 := by
    simp only [parse_value, hc]
    rw [if_neg (by decide : ¬ ("1500" : String) = "")]
    rw [h2]
    exact h3
  have hn : parse_value PyVal.none = 0 := rfl
  refine ⟨rfl, fun n => rfl, fun q => rfl, ?_, ?_, ?_, ?_⟩
  · intro s h
    simp [parse_value, h]
  · intro s h
    simp only [parse_value, h]
    split <;> rfl
  · intro s q hne hsome
    simp only [parse_value, hsome]
    rw [if_neg hne]
  · have b1 : (("production" == "consumption") : Bool) = false := by decide
    have b2 : (("production" == "import_value") : Bool) = false := by decide
    have b3 : (("consumption" == "import_value") : Bool) = false := by decide
    have b4 : (("production" == "export_value") : Bool) = false := by decide
    have b5 : (("consumption" == "export_value") : Bool) = false := by decide
    have b6 : (("import_value" == "export_value") : Bool) = false := by decide
    simp only [fetch_store_status, hp, hn]
    norm_num [status_fields_of, splitExchange, clamp_spikes, clamp_field, lookup_field,
      get_recent_values, is_spike, is_spike_value, store_status_row, List.find?,
      SPIKE_MIN_HISTORY, b1, b2, b3, b4, b5, b6]

/-- C8 witness: the string-parse clause applied at the concrete string
`"1500"`. -/
theorem c8_witness :
    parse_value (PyVal.str " 1500 ") = 1500 := by
  have hd : digitsToNat ['1', '5', '0', '0'] = 1500 := by decide
  have h2 : pyFloat? "1500" = Option.some (mantissaVal ['1', '5', '0', '0'] []) := rfl
  have h3 : mantissaVal ['1', '5', '0', '0'] [] = 1500 := by
    rw [mantissaVal, hd]
    norm_num [digitsToNat]
  exact c8.2.2.2.2.2.1 " 1500 " 1500 (by decide)
    (by rw [(by decide : cleaned_string " 1500 " = "1500"), h2, h3])

-- ===========================================================================
-- C2: retry behaviour of the fetchers
-- ===========================================================================

theorem nordpool_retry_loop_pos {α β : Type} (req : Nat → Except Unit α)
    (decode : α → Except Unit β) (i rem : Nat) (h : 1 ≤ rem) :
    1 ≤ (nordpool_retry_loop req decode i rem).1 := by
  cases rem with
  | zero => omega
  | succ m =>
    simp only [nordpool_retry_loop]
    cases hreq : req i with
    | error e =>
      simp only [hreq]
      omega
    | ok r =>
      cases hdec : decode r with
      | ok p => simp [hreq, hdec]
      | error e =>
        simp only [hreq, hdec]
        omega

/-- C2 counterexample: in `_fetch_nordpool_day` the `resp.json()` decode
sits inside the retry loop, so with every HTTP attempt succeeding and the
payload never decoding, three HTTP requests are issued — a decode failure
after a successful HTTP response is retried, contradicting the claim
(which would allow exactly one request here). -/
theorem c2_counterexample :
    (nordpool_fetch_phase (fun _ => Except.ok (0 : Nat))
        (fun _ : Nat => (Except.error () : Except Unit Nat))).1 = 3 ∧
    (nordpool_fetch_phase (fun _ => Except.ok (0 : Nat))
        (fun _ : Nat => (Except.error () : Except Unit Nat))).1 ≠ 1 := by
  refine ⟨rfl, by decide⟩

/-- C2 (amended): the grid fetch (`fetch_and_store_data`) retries only on
network/HTTP-level failure — its payload decode runs once after the retry
loop, so a first-attempt HTTP success means exactly one request regardless
of the decode outcome, and the request count never depends on the decoder
at all.  The price fetch (`_fetch_nordpool_day`), by contrast, has the
decode inside its retry loop: a decode failure after a successful HTTP
response is retried there. -/
theorem c2_amended :
    (∀ (α β : Type) (req : Nat → Except Unit α) (decode : α → Except Unit β) (r : α),
      req 0 = Except.ok r → statnett_fetch_phase req decode = (1, decode r)) ∧
    (∀ (α β : Type) (req : Nat → Except Unit α) (d1 d2 : α → Except Unit β),
      (statnett_fetch_phase req d1).1 = (statnett_fetch_phase req d2).1) ∧
    (∀ (α β : Type) (req : Nat → Except Unit α) (decode : α → Except Unit β) (r : α),
      req 0 = Except.ok r → decode r = Except.error () →
      2 ≤ (nordpool_fetch_phase req decode).1) := by
  refine ⟨?_, ?_, ?_⟩
  · intro α β req decode r h
    have hu : statnett_retry_loop req 0 3 =
        (match req 0 with
         | Except.ok x => (1, Option.some x)
         | Except.error _ =>
           ((statnett_retry_loop req 1 2).1 + 1, (statnett_retry_loop req 1 2).2)) := rfl
    simp only [statnett_fetch_phase, STATNETT_API_RETRIES, hu, h]
  · intro α β req d1 d2
    rcases hk : statnett_retry_loop req 0 STATNETT_API_RETRIES with ⟨n, res⟩
    cases res <;> simp [statnett_fetch_phase, hk]
  · intro α β req decode r h1 h2
    have hu : nordpool_retry_loop req decode 0 3 =
        (match req 0 with
         | Except.error _ =>
           ((nordpool_retry_loop req decode 1 2).1 + 1, (nordpool_retry_loop req decode 1 2).2)
         | Except.ok x =>
           match decode x with
           | Except.ok p => (1, Option.some p)
           | Except.error _ =>
             ((nordpool_retry_loop req decode 1 2).1 + 1,
               (nordpool_retry_loop req decode 1 2).2)) := rfl
    simp only [nordpool_fetch_phase, NORDPOOL_API_RETRIES, hu, h1, h2]
    have := nordpool_retry_loop_pos req decode 1 2 (by omega)
    omega

/-- C2 witness: the amended theorem applied to a request oracle whose
first HTTP attempt succeeds and a decoder that always fails. -/
theorem c2_amended_witness :
    statnett_fetch_phase (fun _ => Except.ok (5 : Nat))
        (fun _ : Nat => (Except.error () : Except Unit Nat)) = (1, Except.error ()) ∧
    2 ≤ (nordpool_fetch_phase (fun _ => Except.ok (5 : Nat))
        (fun _ : Nat => (Except.error () : Except Unit Nat))).1 :=
  ⟨c2_amended.1 Nat Nat _ _ 5 rfl, c2_amended.2.2 Nat Nat _ _ 5 rfl rfl⟩

-- ===========================================================================
-- C4, C5, C6: schema migrator
-- ===========================================================================

theorem MIGRATIONS_fields (v : Nat) (fn : DBState → DBState)
    (hm : MIGRATIONS v = Option.some fn) (s : DBState) :
    (fn s).ledger = s.ledger ∧ (fn s).hasSchemaVersion = s.hasSchemaVersion := by
  by_cases h1 : v = 1
  · subst h1
    simp [MIGRATIONS] at hm
    subst hm
    exact ⟨rfl, rfl⟩
  · by_cases h2 : v = 2
    · subst h2
      simp [MIGRATIONS] at hm
      subst hm
      exact ⟨rfl, rfl⟩
    · by_cases h3 : v = 3
      · subst h3
        simp [MIGRATIONS] at hm
        subst hm
        exact ⟨rfl, rfl⟩
      · simp [MIGRATIONS, h1, h2, h3] at hm

theorem run_migrations_ok :
    ∀ (vs : List Nat) (s s2 : DBState) (a : List Nat),
      run_migrations s vs = InitResult.ok s2 a →
      a = vs ∧ s2.ledger = s.ledger ++ vs ∧
        (s.hasSchemaVersion = true → s2.hasSchemaVersion = true) := by
  intro vs
  induction vs with
  | nil =>
    intro s s2 a h
    simp only [run_migrations, InitResult.ok.injEq] at h
    obtain ⟨rfl, rfl⟩ := h
    simp
  | cons v rest ih =>
    intro s s2 a h
    cases hm : MIGRATIONS v with
    | none =>
      simp only [run_migrations, hm] at h
      exact InitResult.noConfusion h
    | some fn =>
      cases hr : run_migrations (_set_schema_version (fn s) v) rest with
      | error m s2' =>
        simp only [run_migrations, hm, hr] at h
        exact InitResult.noConfusion h
      | ok s2' a' =>
        simp only [run_migrations, hm, hr, InitResult.ok.injEq] at h
        obtain ⟨rfl, rfl⟩ := h
        obtain ⟨ha', hl', hv'⟩ := ih _ _ _ hr
        obtain ⟨hl, _⟩ := MIGRATIONS_fields v fn hm s
        refine ⟨by rw [ha'], ?_, ?_⟩
        · rw [hl']
          simp [_set_schema_version, hl]
        · intro _
          exact hv' (by simp [_set_schema_version])

theorem ledger_max_append (l1 l2 : List Nat) :
    ledger_max (l1 ++ l2) = max (ledger_max l1) (ledger_max l2) := by
  induction l1 with
  | nil => simp [ledger_max]
  | cons x xs ih =>
    simp only [List.cons_append, ledger_max, List.foldr_cons] at ih ⊢
    rw [ih]
    omega

theorem ledger_max_range' : ∀ (n a : Nat),
    ledger_max (List.range' a n) = if n = 0 then 0 else a + n - 1 := by
  intro n
  induction n with
  | zero => intro a; simp [ledger_max]
  | succ m ih =>
    intro a
    rw [List.range'_succ]
    simp only [ledger_max, List.foldr_cons] at ih ⊢
    rw [ih (a + 1)]
    by_cases hm : m = 0
    · subst hm
      simp
    · rw [if_neg hm, if_neg (by omega : ¬ (m + 1 = 0))]
      omega

/-- C4: when the on-disk schema version exceeds the application's target
version, `init_db` raises before touching anything: the result is the
downgrade error carrying the input state unchanged — no table is created
or altered and no ledger row is written before the failure. -/
theorem c4 (s : DBState) (h : SCHEMA_TARGET_VERSION < _get_schema_version s) :
    init_db SCHEMA_TARGET_VERSION s = InitResult.error "refusing to downgrade" s := by
  simp only [init_db]
  rw [if_neg (by omega : ¬ _get_schema_version s = SCHEMA_TARGET_VERSION), if_pos h]

/-- C4 witness: a store at on-disk version 4 with the application target 3. -/
theorem c4_witness :
    SCHEMA_TARGET_VERSION < _get_schema_version (DBState.mk true true true true true [1, 2, 3, 4]) ∧
    init_db SCHEMA_TARGET_VERSION (DBState.mk true true true true true [1, 2, 3, 4]) =
      InitResult.error "refusing to downgrade" (DBState.mk true true true true true [1, 2, 3, 4]) :=
  ⟨by decide, c4 _ (by decide)⟩

/-- C5: running the migrator twice in a row starting from version 0 yields
the same ledger as running it once: the second invocation finds the
current version equal to the target, applies no migration step, appends no
ledger row, and returns the state unchanged.  (The well-formedness
hypothesis records that a store without a `schema_version` table has no
ledger rows, which is forced in SQLite.) -/
theorem c5 (target : Nat) (s s1 : DBState) (applied : List Nat)
    (hwf : s.hasSchemaVersion = false → s.ledger = [])
    (h0 : _get_schema_version s = 0)
    (h : init_db target s = InitResult.ok s1 applied) :
    init_db target s1 = InitResult.ok s1 [] := by
  by_cases ht : target = 0
  · subst ht
    simp only [init_db, h0, if_pos, if_true, InitResult.ok.injEq] at h
    obtain ⟨rfl, rfl⟩ := h
    simp [init_db, h0]
  · have hml : ledger_max s.ledger = 0 := by
      by_cases hsv : s.hasSchemaVersion
      · simp only [_get_schema_version] at h0
        rwa [if_neg (by simp [hsv])] at h0
      · rw [hwf (by simpa using hsv)]
        rfl
    simp only [init_db, h0] at h
    rw [if_neg (by omega : ¬ (0 = target)), if_neg (by omega : ¬ target < 0),
      if_neg (by simp : ¬ ((0 : Nat) < 0 ∧ ({ s with hasSchemaVersion := true } : DBState).ledger.length = 0))] at h
    obtain ⟨ha, hl, hv⟩ := run_migrations_ok _ _ _ _ h
    have hsv1 : s1.hasSchemaVersion = true := hv (by simp)
    have hcur : _get_schema_version s1 = target := by
      simp only [_get_schema_version, hsv1]
      rw [if_neg (by simp)]
      rw [hl]
      have hproj : ({ s with hasSchemaVersion := true } : DBState).ledger = s.ledger := rfl
      rw [hproj, ledger_max_append, hml, ledger_max_range' (target - 0) (0 + 1)]
      rw [if_neg (by omega)]
      omega
    simp [init_db, hcur]

/-- C5 witness: the fresh store migrated to target 3, then migrated again. -/
theorem c5_witness :
    init_db 3 (DBState.mk true true true true true [1, 2, 3]) =
      InitResult.ok (DBState.mk true true true true true [1, 2, 3]) [] :=
  c5 3 (DBState.mk false false false false false []) _ [1, 2, 3]
    (fun _ => rfl) (by decide) (by decide)

/-- C6: for a store with no `schema_version` table the inferred legacy
version is 2 when both `energy_status` and `spot_prices` exist, 1 when
only `energy_status` exists, and 0 otherwise; `init_db` then backfills the
ledger with exactly one entry per version from 1 up to the inferred
version before running the remaining steps, and the steps actually applied
are exactly the versions above the inferred one. -/
theorem c6 :
    ∀ hs hts hp hk : Bool,
      _get_schema_version (DBState.mk false hs hts hp hk []) =
        (if hs && hp then 2 else if hs then 1 else 0) ∧
      initApplied (init_db SCHEMA_TARGET_VERSION (DBState.mk false hs hts hp hk [])) =
        Option.some (List.range' (_get_schema_version (DBState.mk false hs hts hp hk []) + 1)
          (SCHEMA_TARGET_VERSION - _get_schema_version (DBState.mk false hs hts hp hk []))) ∧
      initLedger (init_db SCHEMA_TARGET_VERSION (DBState.mk false hs hts hp hk [])) =
        Option.some (List.range' 1 (_get_schema_version (DBState.mk false hs hts hp hk [])) ++
          List.range' (_get_schema_version (DBState.mk false hs hts hp hk []) + 1)
            (SCHEMA_TARGET_VERSION - _get_schema_version (DBState.mk false hs hts hp hk []))) := by
  decide

/-- C6 witness: the legacy grid-and-price store (inferred version 2). -/
theorem c6_witness :
    _get_schema_version (DBState.mk false true false true false []) =
      (if true && true then 2 else if true then 1 else 0) ∧
    initApplied (init_db SCHEMA_TARGET_VERSION (DBState.mk false true false true false [])) =
      Option.some (List.range' (_get_schema_version (DBState.mk false true false true false []) + 1)
        (SCHEMA_TARGET_VERSION - _get_schema_version (DBState.mk false true false true false []))) ∧
    initLedger (init_db SCHEMA_TARGET_VERSION (DBState.mk false true false true false [])) =
      Option.some (List.range' 1 (_get_schema_version (DBState.mk false true false true false [])) ++
        List.range' (_get_schema_version (DBState.mk false true false true false []) + 1)
          (SCHEMA_TARGET_VERSION - _get_schema_version (DBState.mk false true false true false []))) :=
  c6 true false true false

-- ===========================================================================
-- C1: spike handling — grid/mix clamps to median, prices drop the row
-- ===========================================================================

/-- C1: for every grid/mix field the writer always stores a value — the
row it upserts carries, for each field, the clamped value, which equals
the rolling median of the field's recent window whenever the detector
judged the field a spike (never omitted); for a price reading judged a
spike, no row is inserted for that (zone, hour) and the loop continues
with the remaining readings against an unchanged table. -/
theorem c1 (db : List GridRow) (tdb : List TypesRow) (ts : Nat) (country : String)
    (pRaw cRaw eRaw nRaw hRaw wRaw thRaw nsRaw : PyVal)
    (pdb : List PriceRow) (pts : Nat) (zone : String) (price : ℚ)
    (rest : List (Nat × String × ℚ)) (cn : String)
    (hz : ZONE_TO_COUNTRY zone = Option.some cn)
    (hsp : (is_spike price (recent_prices pdb zone)).1 = true) :
    GridRow.mk ts country
        (clamp_field (parse_value pRaw / 1000)
          (get_recent_values db "production" country SPIKE_WINDOW_SIZE))
        (clamp_field (parse_value cRaw / 1000)
          (get_recent_values db "consumption" country SPIKE_WINDOW_SIZE))
        (clamp_field (splitExchange (parse_value eRaw)).1
          (get_recent_values db "import_value" country SPIKE_WINDOW_SIZE))
        (clamp_field (splitExchange (parse_value eRaw)).2
          (get_recent_values db "export_value" country SPIKE_WINDOW_SIZE)) ∈
      fetch_store_status db ts country pRaw cRaw eRaw ∧
    TypesRow.mk ts country
        (clamp_field (parse_value nRaw / 1000)
          (get_recent_type_values tdb "nuclear" country SPIKE_WINDOW_SIZE))
        (clamp_field (parse_value hRaw / 1000)
          (get_recent_type_values tdb "hydro" country SPIKE_WINDOW_SIZE))
        (clamp_field (parse_value wRaw / 1000)
          (get_recent_type_values tdb "wind" country SPIKE_WINDOW_SIZE))
        (clamp_field (parse_value thRaw / 1000)
          (get_recent_type_values tdb "thermal" country SPIKE_WINDOW_SIZE))
        (clamp_field (parse_value nsRaw / 1000)
          (get_recent_type_values tdb "not_specified" country SPIKE_WINDOW_SIZE)) ∈
      fetch_store_types tdb ts country nRaw hRaw wRaw thRaw nsRaw ∧
    (∀ (v : ℚ) (recent : List ℚ),
      (is_spike v recent).1 = true → clamp_field v recent = _compute_median recent) ∧
    store_prices ((pts, zone, price) :: rest) pdb =
      ((store_prices rest pdb).1, (store_prices rest pdb).2.1,
        (pts, zone, price) :: (store_prices rest pdb).2.2) := by
  have b1 : (("production" == "consumption") : Bool) = false := by decide
  have b2 : (("production" == "import_value") : Bool) = false := by decide
  have b3 : (("consumption" == "import_value") : Bool) = false := by decide
  have b4 : (("production" == "export_value") : Bool) = false := by decide
  have b5 : (("consumption" == "export_value") : Bool) = false := by decide
  have b6 : (("import_value" == "export_value") : Bool) = false := by decide
  have t1 : (("nuclear" == "hydro") : Bool) = false := by decide
  have t2 : (("nuclear" == "wind") : Bool) = false := by decide
  have t3 : (("hydro" == "wind") : Bool) = false := by decide
  have t4 : (("nuclear" == "thermal") : Bool) = false := by decide
  have t5 : (("hydro" == "thermal") : Bool) = false := by decide
  have t6 : (("wind" == "thermal") : Bool) = false := by decide
  have t7 : (("nuclear" == "not_specified") : Bool) = false := by decide
  have t8 : (("hydro" == "not_specified") : Bool) = false := by decide
  have t9 : (("wind" == "not_specified") : Bool) = false := by decide
  have t10 : (("thermal" == "not_specified") : Bool) = false := by decide
  refine ⟨?_, ?_, ?_, ?_⟩
  · simp only [fetch_store_status, clamp_spikes, status_fields_of, List.map_cons, List.map_nil,
      lookup_field, List.find?, b1, b2, b3, b4, b5, b6, beq_self_eq_true, store_status_row]
    exact List.mem_cons_self _ _
  · simp only [fetch_store_types, clamp_spikes, types_fields_of, List.map_cons, List.map_nil,
      lookup_field, List.find?, t1, t2, t3, t4, t5, t6, t7, t8, t9, t10, beq_self_eq_true,
      store_types_row]
    exact List.mem_cons_self _ _
  · intro v recent h
    simp [clamp_field, h]
  · simp only [store_prices, hz]
    rw [if_pos hsp]

/-- C1 witness: the theorem applied to empty grid/mix tables for Sweden and
to a 5000 EUR/MWh SE3 reading against six stored 50 EUR/MWh rows, which
the detector judges a spike. -/
theorem c1_witness :
    GridRow.mk 0 "SE"
        (clamp_field (parse_value PyVal.none / 1000)
          (get_recent_values [] "production" "SE" SPIKE_WINDOW_SIZE))
        (clamp_field (parse_value PyVal.none / 1000)
          (get_recent_values [] "consumption" "SE" SPIKE_WINDOW_SIZE))
        (clamp_field (splitExchange (parse_value PyVal.none)).1
          (get_recent_values [] "import_value" "SE" SPIKE_WINDOW_SIZE))
        (clamp_field (splitExchange (parse_value PyVal.none)).2
          (get_recent_values [] "export_value" "SE" SPIKE_WINDOW_SIZE)) ∈
      fetch_store_status [] 0 "SE" PyVal.none PyVal.none PyVal.none ∧
    TypesRow.mk 0 "SE"
        (clamp_field (parse_value PyVal.none / 1000)
          (get_recent_type_values [] "nuclear" "SE" SPIKE_WINDOW_SIZE))
        (clamp_field (parse_value PyVal.none / 1000)
          (get_recent_type_values [] "hydro" "SE" SPIKE_WINDOW_SIZE))
        (clamp_field (parse_value PyVal.none / 1000)
          (get_recent_type_values [] "wind" "SE" SPIKE_WINDOW_SIZE))
        (clamp_field (parse_value PyVal.none / 1000)
          (get_recent_type_values [] "thermal" "SE" SPIKE_WINDOW_SIZE))
        (clamp_field (parse_value PyVal.none / 1000)
          (get_recent_type_values [] "not_specified" "SE" SPIKE_WINDOW_SIZE)) ∈
      fetch_store_types [] 0 "SE" PyVal.none PyVal.none PyVal.none PyVal.none PyVal.none ∧
    (∀ (v : ℚ) (recent : List ℚ),
      (is_spike v recent).1 = true → clamp_field v recent = _compute_median recent) ∧
    store_prices [((6 : Nat), "SE3", (5000 : ℚ))] sample_price_db =
      ((store_prices [] sample_price_db).1, (store_prices [] sample_price_db).2.1,
        ((6 : Nat), "SE3", (5000 : ℚ)) :: (store_prices [] sample_price_db).2.2) := by
  have hl : recent_prices sample_price_db "SE3" = List.replicate 6 (50 : ℚ) := rfl
  have hsp : (is_spike 5000 (recent_prices sample_price_db "SE3")).1 = true := by
    rw [hl, is_spike_replicate 5000 50 6 (by decide)]
    rw [if_neg (by rw [abs_of_pos (by norm_num : (0 : ℚ) < 50)]; norm_num :
      ¬ (|(50 : ℚ)| < 1 / 1000000000))]
    rw [if_pos (by
      rw [SPIKE_FALLBACK_PCT, abs_of_pos (by norm_num : (0 : ℚ) < 50),
        abs_of_pos (by norm_num : (0 : ℚ) < (5000 : ℚ) - 50)]
      norm_num :
      SPIKE_FALLBACK_PCT * |(50 : ℚ)| < |(5000 : ℚ) - 50|)]
  exact c1 [] [] 0 "SE" PyVal.none PyVal.none PyVal.none PyVal.none PyVal.none PyVal.none
    PyVal.none PyVal.none sample_price_db 6 "SE3" 5000 [] "SE" (by decide) hsp

-- ===========================================================================
-- C9: silent discarding of non-coercible / NaN / oversized price entries
-- ===========================================================================

theorem coerce_price_bound (p : PriceJson) (q : ℚ) (h : coerce_price p = Option.some q) :
    |q| ≤ 1000000 := by
  cases p with
  | num x =>
    by_cases hx : 1000000 < |x|
    · rw [coerce_price, if_pos hx] at h
      exact Option.noConfusion h
    · rw [coerce_price, if_neg hx] at h
      obtain rfl := Option.some.inj h
      exact not_lt.mp hx
  | nan => exact Option.noConfusion h
  | str s =>
    cases hp : pyFloat? (pythonStrip s) with
    | none =>
      rw [coerce_price, hp] at h
      exact Option.noConfusion h
    | some x =>
      rw [coerce_price, hp] at h
      simp only [] at h
      by_cases hx : 1000000 < |x|
      · rw [if_pos hx] at h
        exact Option.noConfusion h
      · rw [if_neg hx] at h
        obtain rfl := Option.some.inj h
        exact not_lt.mp hx
  | null => exact Option.noConfusion h

theorem nordpool_collect_area_mem (zones : List String) (hour : Nat) :
    ∀ (l : List (String × PriceJson)) (seen : List (String × Nat)) (h : Nat) (z : String) (q : ℚ),
      (h, z, q) ∈ (nordpool_collect_area zones hour l seen).1 →
      (z, h) ∉ seen ∧ h = hour ∧ |q| ≤ 1000000 := by
  intro l
  induction l with
  | nil =>
    intro seen h z q hm
    simp [nordpool_collect_area] at hm
  | cons zp rest ih =>
    rcases zp with ⟨zone, price⟩
    intro seen h z q hm
    simp only [nordpool_collect_area] at hm
    by_cases h1 : zone ∉ zones
    · rw [if_pos h1] at hm
      exact ih seen h z q hm
    · rw [if_neg h1] at hm
      by_cases h2 : (zone, hour) ∈ seen
      · rw [if_pos h2] at hm
        exact ih seen h z q hm
      · rw [if_neg h2] at hm
        cases hc : coerce_price price with
        | none =>
          rw [hc] at hm
          simp only [] at hm
          obtain ⟨hns, hh, hq⟩ := ih _ h z q hm
          exact ⟨fun hin => hns (List.mem_cons_of_mem _ hin), hh, hq⟩
        | some q0 =>
          rw [hc] at hm
          simp only [List.mem_cons] at hm
          rcases hm with heq | hm
          · cases heq
            exact ⟨h2, rfl, coerce_price_bound _ _ hc⟩
          · obtain ⟨hns, hh, hq⟩ := ih _ h z q hm
            exact ⟨fun hin => hns (List.mem_cons_of_mem _ hin), hh, hq⟩

theorem nordpool_collect_area_seen (zones : List String) (hour : Nat) :
    ∀ (l : List (String × PriceJson)) (seen : List (String × Nat)) (k : String × Nat),
      k ∈ seen → k ∈ (nordpool_collect_area zones hour l seen).2 := by
  intro l
  induction l with
  | nil =>
    intro seen k hk
    simpa [nordpool_collect_area] using hk
  | cons zp rest ih =>
    rcases zp with ⟨zone, price⟩
    intro seen k hk
    simp only [nordpool_collect_area]
    by_cases h1 : zone ∉ zones
    · rw [if_pos h1]
      exact ih seen k hk
    · rw [if_neg h1]
      by_cases h2 : (zone, hour) ∈ seen
      · rw [if_pos h2]
        exact ih seen k hk
      · rw [if_neg h2]
        cases hc : coerce_price price with
        | none =>
          simp only [hc]
          exact ih _ k (List.mem_cons_of_mem _ hk)
        | some q0 =>
          simp only [hc]
          exact ih _ k (List.mem_cons_of_mem _ hk)

theorem nordpool_collect_not_seen (zones : List String) :
    ∀ (entries : List MultiAreaEntry) (seen : List (String × Nat)) (h : Nat) (z : String) (q : ℚ),
      (h, z, q) ∈ nordpool_collect zones entries seen → (z, h) ∉ seen ∧ |q| ≤ 1000000 := by
  intro entries
  induction entries with
  | nil =>
    intro seen h z q hm
    simp [nordpool_collect] at hm
  | cons e rest ih =>
    intro seen h z q hm
    simp only [nordpool_collect] at hm
    cases hd : e.deliveryStart with
    | none =>
      rw [hd] at hm
      simp only [] at hm
      exact ih seen h z q hm
    | some hour =>
      rw [hd] at hm
      simp only [] at hm
      rcases List.mem_append.mp hm with hm1 | hm2
      · obtain ⟨hns, hh, hq⟩ := nordpool_collect_area_mem zones hour _ seen h z q hm1
        exact ⟨hns, hq⟩
      · obtain ⟨hns, hq⟩ := ih _ h z q hm2
        exact ⟨fun hin => hns (nordpool_collect_area_seen zones hour _ seen _ hin), hq⟩

/-- C9: the decode loop of `_fetch_nordpool_day` silently discards every
price entry whose value fails float coercion, is NaN, or exceeds 1e6 in
magnitude — before spike detection can run.  First conjunct: such an entry
contributes nothing except marking its (zone, hour) key seen.  Second:
every collected tuple passed the magnitude guard.  Third: when the first
occurrence of a (zone, hour) key carries a discarded value, no tuple for
that key is returned at all (the gap), so the storage loop never sees it.
Fourth: the spike-dropped list of the storage loop only ever contains
tuples that were actually returned by the decode loop, so a discarded
reading is never counted or logged as a spike. -/
theorem c9 :
    (∀ (zones : List String) (hour : Nat) (zone : String) (price : PriceJson)
        (rest : List (String × PriceJson)) (seen : List (String × Nat)),
      coerce_price price = Option.none → zone ∈ zones → (zone, hour) ∉ seen →
      nordpool_collect_area zones hour ((zone, price) :: rest) seen =
        nordpool_collect_area zones hour rest ((zone, hour) :: seen)) ∧
    (∀ (zones : List String) (entries : List MultiAreaEntry) (h : Nat) (z : String) (q : ℚ),
      (h, z, q) ∈ _fetch_nordpool_day zones entries → |q| ≤ 1000000) ∧
    (∀ (zones : List String) (hour : Nat) (zone : String) (price : PriceJson)
        (l : List (String × PriceJson)) (erest : List MultiAreaEntry) (q : ℚ),
      coerce_price price = Option.none → zone ∈ zones →
      (hour, zone, q) ∉
        _fetch_nordpool_day zones
          (MultiAreaEntry.mk (Option.some hour) ((zone, price) :: l) :: erest)) ∧
    (∀ (rows : List (Nat × String × ℚ)) (db : List PriceRow) (x : Nat × String × ℚ),
      x ∈ (store_prices rows db).2.2 → x ∈ rows) := by
  have hskip : ∀ (zones : List String) (hour : Nat) (zone : String) (price : PriceJson)
      (rest : List (String × PriceJson)) (seen : List (String × Nat)),
      coerce_price price = Option.none → zone ∈ zones → (zone, hour) ∉ seen →
      nordpool_collect_area zones hour ((zone, price) :: rest) seen =
        nordpool_collect_area zones hour rest ((zone, hour) :: seen) := by
    intro zones hour zone price rest seen hc hz hns
    simp only [nordpool_collect_area]
    rw [if_neg (not_not_intro hz), if_neg hns, hc]
  refine ⟨hskip, ?_, ?_, ?_⟩
  · intro zones entries h z q hm
    exact (nordpool_collect_not_seen zones entries [] h z q hm).2
  · intro zones hour zone price l erest q hc hz hm
    rw [_fetch_nordpool_day] at hm
    simp only [nordpool_collect] at hm
    rw [hskip zones hour zone price l [] hc hz (by simp)] at hm
    rcases List.mem_append.mp hm with hm1 | hm2
    · obtain ⟨hns, _, _⟩ := nordpool_collect_area_mem zones hour _ _ hour zone q hm1
      exact hns (List.mem_cons_self _ _)
    · obtain ⟨hns, _⟩ := nordpool_collect_not_seen zones erest _ hour zone q hm2
      exact hns (nordpool_collect_area_seen zones hour l [(zone, hour)] _
        (List.mem_cons_self _ _))
  · intro rows
    induction rows with
    | nil =>
      intro db x hx
      simp [store_prices] at hx
    | cons r rrest ih =>
      rcases r with ⟨ts, zone, price⟩
      intro db x hx
      simp only [store_prices] at hx
      cases hzc : ZONE_TO_COUNTRY zone with
      | none =>
        rw [hzc] at hx
        simp only [] at hx
        exact List.mem_cons_of_mem _ (ih db x hx)
      | some cn =>
        rw [hzc] at hx
        simp only [] at hx
        by_cases hsp : (is_spike price (recent_prices db zone)).1
        · rw [if_pos hsp] at hx
          simp only [List.mem_cons] at hx
          rcases hx with heq | hx
          · exact heq ▸ List.mem_cons_self _ _
          · exact List.mem_cons_of_mem _ (ih db x hx)
        · rw [if_neg hsp] at hx
          exact List.mem_cons_of_mem _ (ih _ x hx)

/-- C9 witness: a NaN-priced SE3 entry is skipped by the area loop (only
its key is marked seen) and no tuple for its (zone, hour) key is returned
by the day fetch. -/
theorem c9_witness :
    nordpool_collect_area ["SE3"] 6 [("SE3", PriceJson.nan)] [] =
      nordpool_collect_area ["SE3"] 6 [] [("SE3", 6)] ∧
    ((6 : Nat), "SE3", (42 : ℚ)) ∉
      _fetch_nordpool_day ["SE3"] [MultiAreaEntry.mk (Option.some 6) [("SE3", PriceJson.nan)]] :=
  ⟨c9.1 ["SE3"] 6 "SE3" PriceJson.nan [] [] rfl (by decide) (by decide),
   c9.2.2.1 ["SE3"] 6 "SE3" PriceJson.nan [] [] 42 rfl (by decide)⟩
